import Mathlib

/-!
Shallow embedding of the Power-Disparity-Predictor energy waste engine.

The definitions below are transcribed from the Python sources:
  * `ai_energy_analyst.py`       — `AIEnergyAnalyst` (baseline learning,
    priority classification, conservation rescale, report assembly);
  * `alert_recommendation_system.py` — `AlertGenerator` (alert creation,
    building report);
  * `learning_adaptation_agent.py`   — `LearningAdaptationAgent`
    (feedback-driven threshold adaptation, alert gating).

Numbers are modelled as rationals (`ℚ`); Python `float` NaN (which pandas
produces for the mean of an empty selection) is modelled as `Option ℚ` with
`none` for NaN, and every comparison against a possibly-NaN value follows
Python semantics (any `<`/`>` comparison with NaN is false).  Timestamps are
modelled as absolute hours (`ℕ`); the hour-of-day is the value mod 24.
-/

namespace PDP

attribute [local semireducible] Rat.mul Rat.inv Rat.add Rat.sub Rat.ofScientific

/-- Python `str.lower()`, character by character (the library
`String.toLower` is implemented with a non-structural helper that the
kernel cannot evaluate). -/
def toLowerStr (s : String) : String := ⟨s.data.map Char.toLower⟩

/-- Python `str.upper()`, character by character. -/
def toUpperStr (s : String) : String := ⟨s.data.map Char.toUpper⟩

/-- Association-list lookup, modelling Python `dict.get` / `d[k]`
(first binding wins, as keys are unique in the modelled dicts). -/
def lookup {β : Type} (m : List (String × β)) (k : String) : Option β :=
  (m.find? (fun p => p.1 = k)).map (fun p => p.2)

/-- Python `d[k] = v`: replace the value in place if the key is present,
otherwise append a new binding (Python dicts preserve insertion order). -/
def dictSet {β : Type} (m : List (String × β)) (k : String) (v : β) :
    List (String × β) :=
  if (m.find? (fun p => p.1 = k)).isSome then
    m.map (fun p => if p.1 = k then (k, v) else p)
  else m ++ [(k, v)]

/-- Python `d[k] = d.get(k, 0) + v` for numeric accumulator dicts. -/
def dictAdd (m : List (String × ℚ)) (k : String) (v : ℚ) :
    List (String × ℚ) :=
  dictSet m k (((lookup m k).getD 0) + v)

/-- Model of `pandas.Series.unique` over `f`-projections: values in order of first
appearance. -/
def uniqueVals {α : Type} (f : α → String) (l : List α) : List String :=
  l.foldl (fun acc a => if f a ∈ acc then acc else acc ++ [f a]) []

/-- Mean of a list of rationals, modelling `pandas.Series.mean`:
`none` models the NaN produced for an empty selection. -/
def meanQ (l : List ℚ) : Option ℚ :=
  if l.isEmpty then none else some (l.sum / (l.length : ℚ))

/-- Mean of a list known to be non-empty at every use site
(the empty case is junk, never reached in the modelled code paths). -/
def meanD (l : List ℚ) : ℚ := l.sum / (l.length : ℚ)

/-- Python `p > e + m` where `e` may be NaN (`none`): a comparison against
NaN is false. -/
def gtOpt (p : ℚ) (e : Option ℚ) (m : ℚ) : Bool :=
  match e with
  | none => false
  | some x => decide (x + m < p)

/-- Truncation toward zero, modelling Python `int()` applied to a float. -/
def intTrunc (q : ℚ) : ℤ := q.num / (q.den : ℤ)

/-- Python `round(x, 2)` (ties are rare and never exercised by the claims;
`round` here rounds half up rather than Python's half-to-even). -/
def round2 (q : ℚ) : ℚ := ((round (q * 100) : ℤ) : ℚ) / 100

/-- Python `round(x, 0)`. -/
def round0 (q : ℚ) : ℚ := ((round q : ℤ) : ℚ)

/-- Python `needle in haystack` on strings (substring test). -/
def containsSub (haystack needle : String) : Bool :=
  decide (needle.toList <:+: haystack.toList)

/-- Python falsy-`or` on an optional string: `s or dflt` where both `None`
and `""` are falsy. -/
def orDefaultStr (s : Option String) (dflt : String) : String :=
  match s with
  | none => dflt
  | some t => if t = "" then dflt else t

/-- Insert `x` into `l` in front of the first element `y` with `le x y`.
Models one step of a stable comparison sort. -/
def insertLe {α : Type} (le : α → α → Bool) (x : α) : List α → List α
  | [] => [x]
  | y :: ys => if le x y then x :: y :: ys else y :: insertLe le x ys

/-- Stable comparison sort (models `pandas.sort_values` / Python
`list.sort`, whose exact algorithm is irrelevant to the claims). -/
def sortLe {α : Type} (le : α → α → Bool) : List α → List α
  | [] => []
  | x :: xs => insertLe le x (sortLe le xs)

/-! ## `ai_energy_analyst.py` — data model -/

/-- One normalized meter reading (a row of the analysis DataFrame).
`timestamp` is in absolute hours; the analyst only uses its order and its
hour-of-day (`timestamp % 24`).  `duration_hours` is fixed to 1 by
`analyze`. -/
structure Reading where
  timestamp : ℕ
  device_id : String
  device_category : String
  power_w : ℚ
  occupancy_status : String
  location_floor : String
  location_zone : String
  deriving Repr, DecidableEq, Inhabited

/-- Model of `WasteIssue` dataclass. -/
structure WasteIssue where
  title : String
  location : String
  device : String
  time_period : String
  extra_energy_kwh : ℚ
  cost_per_day : ℚ
  action : String
  reason : String
  severity : String
  deriving Repr, DecidableEq

/-- Model of `EnergyAnalysisReport` dataclass (the `timestamp` field is omitted:
it is wall-clock metadata used by no computation). -/
structure EnergyAnalysisReport where
  total_energy_kwh : ℚ
  energy_wasted_kwh : ℚ
  money_lost_today : ℚ
  monthly_savings_potential : ℚ
  efficiency_score : ℤ
  issues : List WasteIssue
  daily_loss : ℚ
  monthly_loss : ℚ
  yearly_loss : ℚ
  automation_rules : List String
  main_waste_source : String
  deriving Repr, DecidableEq

/-- The per-device baseline dict built by `_learn_baselines`.
`unoccupied_baseline` / `after_hours_baseline` are `none` when pandas
would produce NaN (mean of an empty selection). -/
structure Baseline where
  avg_power : ℚ
  max_power : ℚ
  min_power : ℚ
  occupied_baseline : ℚ
  unoccupied_baseline : Option ℚ
  after_hours_baseline : Option ℚ
  category : String
  location : String
  deriving Repr, DecidableEq

/-- The `{}` used by `baselines.get(device_id, {})`: every `.get(key, d)`
on it yields the default (`''` for category, `0` for the numeric
baselines).  Unreachable in `analyze`, where every device has a
baseline. -/
def defaultBaseline : Baseline :=
  { avg_power := 0, max_power := 0, min_power := 0, occupied_baseline := 0,
    unoccupied_baseline := some 0, after_hours_baseline := some 0,
    category := "", location := "" }

/-- One classified DataFrame row after the priority pass. -/
structure Classified where
  reading : Reading
  waste_category : String
  expected_baseline_w : ℚ
  excess_power_w : ℚ
  wasted_energy_kwh : ℚ
  deriving Repr, DecidableEq

/-! ## `ai_energy_analyst.py` — the analyst -/

/-- Model of `AIEnergyAnalyst.business_start.hour` (9:00). -/
def business_start_hour : ℕ := 9

/-- Model of `AIEnergyAnalyst.business_end.hour` (18:00). -/
def business_end_hour : ℕ := 18

/-- Model of `self.phantom_threshold` lookup with fallback to the `'default'`
entry. -/
def phantom_threshold (category : String) : ℚ :=
  if category = "hvac" then 200
  else if category = "lighting" then 50
  else if category = "computer" then 20
  else if category = "printer" then 15
  else 10

/-- The exempt always-on categories tested by all three predicates. -/
def exemptCategories : List String :=
  ["fridge", "freezer", "server", "security", "router"]

/-- Model of `duration_hours` column, set to `1.0` for every row. -/
def duration_hours : ℚ := 1

/-- Model of `df['energy_kwh'] = (df['power_w'] / 1000.0) * df['duration_hours']`. -/
def energy_kwh (r : Reading) : ℚ := r.power_w / 1000 * duration_hours

/-- Model of `AIEnergyAnalyst._is_phantom_load`. -/
def is_phantom_load (r : Reading) (b : Baseline) : Bool :=
  let category := toLowerStr b.category
  if exemptCategories.contains category then false
  else if r.occupancy_status = "unoccupied" then
    let threshold := phantom_threshold category
    decide (0 < r.power_w ∧ r.power_w ≤ threshold * 3)
  else false

/-- Model of `AIEnergyAnalyst._is_unoccupied_usage`. -/
def is_unoccupied_usage (r : Reading) (b : Baseline) : Bool :=
  let category := toLowerStr b.category
  if exemptCategories.contains category then false
  else if r.occupancy_status = "unoccupied" then
    if category = "hvac" ∨ category = "lighting" then
      gtOpt r.power_w b.unoccupied_baseline 100
    else
      gtOpt r.power_w b.unoccupied_baseline 50
  else false

/-- Model of `AIEnergyAnalyst._is_after_hours`. -/
def is_after_hours (r : Reading) (b : Baseline) : Bool :=
  let category := toLowerStr b.category
  if exemptCategories.contains category then false
  else
    let hour := r.timestamp % 24
    let afterHours := hour < business_start_hour ∨ business_end_hour ≤ hour
    if afterHours ∧ r.occupancy_status ≠ "occupied" then
      gtOpt r.power_w b.after_hours_baseline 100
    else false

/-- The body of the classification loop of `AIEnergyAnalyst.analyze`
for one row: priority phantom_load > unoccupied_usage > after_hours >
normal, first match wins.  In the matched branches the relevant baseline
is necessarily non-NaN (`gtOpt` is false on `none`), so the `none` arms
are unreachable. -/
def classifyRecord (r : Reading) (b : Baseline) : Classified :=
  if is_phantom_load r b then
    { reading := r, waste_category := "phantom_load",
      expected_baseline_w := 0, excess_power_w := r.power_w,
      wasted_energy_kwh := r.power_w / 1000 * duration_hours }
  else if is_unoccupied_usage r b then
    match b.unoccupied_baseline with
    | some expected =>
      let excess := max 0 (r.power_w - expected)
      { reading := r, waste_category := "unoccupied_usage",
        expected_baseline_w := expected, excess_power_w := excess,
        wasted_energy_kwh := excess / 1000 * duration_hours }
    | none =>
      { reading := r, waste_category := "normal",
        expected_baseline_w := 0, excess_power_w := 0,
        wasted_energy_kwh := 0 }
  else if is_after_hours r b then
    match b.after_hours_baseline with
    | some expected =>
      let excess := max 0 (r.power_w - expected)
      { reading := r, waste_category := "after_hours",
        expected_baseline_w := expected, excess_power_w := excess,
        wasted_energy_kwh := excess / 1000 * duration_hours }
    | none =>
      { reading := r, waste_category := "normal",
        expected_baseline_w := 0, excess_power_w := 0,
        wasted_energy_kwh := 0 }
  else
    { reading := r, waste_category := "normal",
      expected_baseline_w := 0, excess_power_w := 0,
      wasted_energy_kwh := 0 }

/-- Python `s or dflt` for a plain string field (empty string is falsy;
a missing value is modelled as the empty string). -/
def orEmptyStr (s dflt : String) : String := if s = "" then dflt else s

/-- Model of `pandas.Series.max` over a non-empty device selection. -/
def maxQ (l : List ℚ) : ℚ := l.foldl max (l.headD 0)

/-- Model of `pandas.Series.min` over a non-empty device selection. -/
def minQ (l : List ℚ) : ℚ := l.foldl min (l.headD 0)

/-- The baseline `_learn_baselines` builds for one device from that
device's rows (`device_df`), which are non-empty by construction. -/
def deviceBaseline (rows : List Reading) : Baseline :=
  let category := (rows.headD default).device_category
  let powers := rows.map (fun r => r.power_w)
  let occupied_data :=
    (rows.filter (fun r => r.occupancy_status = "occupied")).map
      (fun r => r.power_w)
  let unoccupied_data :=
    (rows.filter (fun r => r.occupancy_status = "unoccupied")).map
      (fun r => r.power_w)
  let occupied_baseline :=
    if occupied_data.isEmpty then meanD powers else meanD occupied_data
  let unoccupied_baseline :=
    if toLowerStr category = "hvac" ∨ toLowerStr category = "lighting" then
      meanQ unoccupied_data
    else some 0
  { avg_power := meanD powers,
    max_power := maxQ powers,
    min_power := minQ powers,
    occupied_baseline := occupied_baseline,
    unoccupied_baseline := unoccupied_baseline,
    after_hours_baseline := unoccupied_baseline,
    category := category,
    location :=
      orEmptyStr (rows.headD default).location_floor "Unknown Floor" ++
        ", " ++ orEmptyStr (rows.headD default).location_zone "Unknown Zone" }

/-- Model of `AIEnergyAnalyst._learn_baselines`, applied (as in `analyze`) to the
timestamp-sorted rows. -/
def learn_baselines (l : List Reading) : List (String × Baseline) :=
  (uniqueVals (fun r => r.device_id) l).map
    (fun d => (d, deviceBaseline (l.filter (fun r => r.device_id = d))))

/-- Model of `df = df.sort_values('timestamp')`. -/
def sortReadings (rs : List Reading) : List Reading :=
  sortLe (fun a b => decide (a.timestamp ≤ b.timestamp)) rs

/-- The classification pass over the sorted rows. -/
def classifyAll (l : List Reading) (bm : List (String × Baseline)) :
    List Classified :=
  l.map (fun r => classifyRecord r ((lookup bm r.device_id).getD defaultBaseline))

/-- Model of `df['wasted_energy_kwh'].sum()`. -/
def sumWasted (recs : List Classified) : ℚ :=
  (recs.map (fun c => c.wasted_energy_kwh)).sum

/-- Model of `total_energy_used = df['energy_kwh'].sum()` over the sorted rows. -/
def totalEnergy (l : List Reading) : ℚ := (l.map energy_kwh).sum

/-- Step 4 of `analyze`: the conservation safety check.  The rescale by
`scale_factor = total_energy_used * 0.95 / total_wasted_energy` fires
only when `total_wasted_energy > total_energy_used` (strictly). -/
def applyConservation (l : List Reading) (recs : List Classified) :
    List Classified :=
  if totalEnergy l < sumWasted recs then
    recs.map (fun c =>
      { c with wasted_energy_kwh :=
          c.wasted_energy_kwh * (totalEnergy l * 0.95 / sumWasted recs) })
  else recs

/-- Steps 2–4 of `analyze`: learn baselines from the sorted rows,
classify every row, apply the conservation safety check. -/
def classifiedPass (readings : List Reading) : List Classified :=
  applyConservation (sortReadings readings)
    (classifyAll (sortReadings readings)
      (learn_baselines (sortReadings readings)))

/-- Model of `AIEnergyAnalyst._generate_issues_from_classified_data`. -/
def generate_issues_from_classified_data (cost_per_kwh : ℚ)
    (recs : List Classified) (bm : List (String × Baseline)) :
    List WasteIssue :=
  let waste := recs.filter (fun c => c.waste_category ≠ "normal")
  ((uniqueVals (fun c => c.reading.device_id) waste).map (fun device_id =>
    let device_waste := waste.filter (fun c => c.reading.device_id = device_id)
    let baseline := (lookup bm device_id).getD defaultBaseline
    (uniqueVals (fun c => c.waste_category) device_waste).filterMap
      (fun waste_type =>
        let type_waste :=
          device_waste.filter (fun c => c.waste_category = waste_type)
        let total_wasted_kwh :=
          (type_waste.map (fun c => c.wasted_energy_kwh)).sum
        let avg_excess_power :=
          meanD (type_waste.map (fun c => c.excess_power_w))
        let cost_per_day := total_wasted_kwh * cost_per_kwh
        if waste_type = "phantom_load" then
          some { title := "Phantom Load: " ++ toUpperStr baseline.category ++
                   " Never Turns Off",
                 location := baseline.location,
                 device := device_id,
                 time_period := "24/7",
                 extra_energy_kwh := round2 total_wasted_kwh,
                 cost_per_day := round2 cost_per_day,
                 action := "Install smart plug to cut power when not in use",
                 reason := "Device draws " ++ toString (intTrunc avg_excess_power)
                   ++ "W constantly, even when 'off'",
                 severity := if 20 < cost_per_day then "medium" else "low" }
        else if waste_type = "unoccupied_usage" then
          some { title := toUpperStr baseline.category ++
                   " Active When Space Unoccupied",
                 location := baseline.location,
                 device := device_id,
                 time_period := "During unoccupied periods",
                 extra_energy_kwh := round2 total_wasted_kwh,
                 cost_per_day := round2 cost_per_day,
                 action := "Connect to occupancy sensor for automatic control",
                 reason := "Device uses " ++ toString (intTrunc avg_excess_power)
                   ++ "W when no one is present",
                 severity := if 100 < cost_per_day then "critical" else "high" }
        else if waste_type = "after_hours" then
          some { title := toUpperStr baseline.category ++ " Running After Hours",
                 location := baseline.location,
                 device := device_id,
                 time_period := "After " ++ toString business_end_hour ++
                   ":00 PM",
                 extra_energy_kwh := round2 total_wasted_kwh,
                 cost_per_day := round2 cost_per_day,
                 action := "Set timer to turn off at " ++
                   toString business_end_hour ++ ":00 PM",
                 reason := "Consuming " ++ toString (intTrunc avg_excess_power)
                   ++ "W when building is empty",
                 severity := if 50 < cost_per_day then "high" else "medium" }
        else none))).flatten

/-- Model of `AIEnergyAnalyst._calculate_efficiency_score`. -/
def calculate_efficiency_score (total_energy wasted_energy : ℚ) : ℤ :=
  if total_energy = 0 then 100
  else
    let waste_percentage := wasted_energy / total_energy * 100
    let efficiency := 100 - waste_percentage
    max 0 (min 100 (intTrunc efficiency))

/-- Model of `AIEnergyAnalyst._generate_automation_rules`. -/
def generate_automation_rules (issues : List WasteIssue) : List String :=
  let after_hours := issues.filter (fun i => containsSub i.title "After Hours")
  let phantom := issues.filter (fun i => containsSub i.title "Phantom Load")
  let unoccupied := issues.filter (fun i => containsSub i.title "Unoccupied")
  (if !after_hours.isEmpty then
    ["IF time is after 6:00 PM, THEN turn off all HVAC and lighting systems"]
  else []) ++
  (if !unoccupied.isEmpty then
    ["IF occupancy sensor detects no motion for 15 minutes, THEN reduce HVAC to setback mode",
     "IF space is unoccupied, THEN turn off all non-essential lighting"]
  else []) ++
  (if !phantom.isEmpty then
    ["IF device is in standby mode for more than 1 hour, THEN cut power completely"]
  else [])

/-- Model of `AIEnergyAnalyst._identify_main_waste_source`.  Division by a zero
total models Python junk in an unexercised corner (all-zero costs). -/
def identify_main_waste_source (issues : List WasteIssue) : String :=
  if issues.isEmpty then
    "No significant energy waste detected. System is operating efficiently."
  else
    let category_costs := issues.foldl (fun m issue =>
      if containsSub issue.title "HVAC" then
        dictAdd m "HVAC" issue.cost_per_day
      else if containsSub issue.title "Lighting" ∨
          containsSub issue.title "LIGHTING" then
        dictAdd m "Lighting" issue.cost_per_day
      else if containsSub issue.title "Phantom" then
        dictAdd m "Phantom Loads" issue.cost_per_day
      else dictAdd m "Other Devices" issue.cost_per_day) []
    if category_costs.isEmpty then
      "Energy waste detected across multiple device categories."
    else
      let main_source := category_costs.foldl
        (fun best p => if best.2 < p.2 then p else best)
        (category_costs.headD ("", 0))
      let percentage :=
        main_source.2 / (category_costs.map (fun p => p.2)).sum * 100
      "Most waste comes from " ++ main_source.1 ++ " (" ++
        toString (intTrunc percentage) ++ "% of total waste)"

/-- Model of `AIEnergyAnalyst._empty_report`. -/
def empty_report : EnergyAnalysisReport :=
  { total_energy_kwh := 0, energy_wasted_kwh := 0, money_lost_today := 0,
    monthly_savings_potential := 0, efficiency_score := 100, issues := [],
    daily_loss := 0, monthly_loss := 0, yearly_loss := 0,
    automation_rules := [], main_waste_source := "No data available for analysis" }

/-- Model of `AIEnergyAnalyst.analyze` (`cost_per_kwh` is the constructor
parameter, default 8.0). -/
def analyze (cost_per_kwh : ℚ) (readings : List Reading) :
    EnergyAnalysisReport :=
  if readings.isEmpty then empty_report
  else
    let df := sortReadings readings
    let total_energy_used := totalEnergy df
    let baselines := learn_baselines df
    let classified := classifiedPass readings
    let total_wasted_energy := sumWasted classified
    let issues0 :=
      generate_issues_from_classified_data cost_per_kwh classified baselines
    let daily_loss := total_wasted_energy * cost_per_kwh
    let monthly_loss := daily_loss * 30
    let yearly_loss := daily_loss * 365
    let efficiency_score :=
      calculate_efficiency_score total_energy_used total_wasted_energy
    let automation_rules := generate_automation_rules issues0
    let main_waste_source := identify_main_waste_source issues0
    let issues :=
      sortLe (fun a b => decide (b.cost_per_day ≤ a.cost_per_day)) issues0
    { total_energy_kwh := round2 total_energy_used,
      energy_wasted_kwh := round2 total_wasted_energy,
      money_lost_today := round2 daily_loss,
      monthly_savings_potential := round2 monthly_loss,
      efficiency_score := efficiency_score,
      issues := issues,
      daily_loss := round2 daily_loss,
      monthly_loss := round2 monthly_loss,
      yearly_loss := round0 yearly_loss,
      automation_rules := automation_rules,
      main_waste_source := main_waste_source }

/-! ## `alert_recommendation_system.py` -/

/-- Model of `AlertSeverity` enum. -/
inductive AlertSeverity where
  | info
  | low
  | medium
  | high
  | critical
  deriving Repr, DecidableEq

/-- Model of `Alert` dataclass.  Times (`first_detected`, `last_detected`,
`created_at`, `updated_at`) are in hours, supplied as an explicit `now`
argument in place of `datetime.now()`. -/
structure Alert where
  alert_id : String
  severity : AlertSeverity
  title : String
  description : String
  location_floor : Option String
  location_zone : Option String
  device_id : String
  device_category : String
  daily_cost_loss_inr : ℚ
  monthly_cost_loss_inr : ℚ
  annual_cost_loss_inr : ℚ
  waste_type : String
  pattern_frequency : String
  first_detected : ℚ
  last_detected : ℚ
  detection_count : ℕ
  evidence : List String
  occupancy_mismatch : Bool
  status : String
  assigned_to : Option String
  notes : Option String
  recommendation_ids : List String
  created_at : ℚ
  updated_at : ℚ
  deriving Repr, DecidableEq

/-- Model of `Recommendation` dataclass (only data fields; the free text of a
recommendation is built by `generate_recommendations`, which no claim
touches, so recommendations enter the store as explicit values). -/
structure Recommendation where
  recommendation_id : String
  alert_id : String
  rec_type : String
  title : String
  description : String
  estimated_annual_savings_inr : ℚ
  implementation_cost_inr : ℚ
  payback_period_months : ℚ
  confidence_percent : ℚ
  responsible_team : String
  estimated_implementation_days : ℕ
  required_uptime_impact : String
  priority : AlertSeverity
  urgency : String
  status : String
  deriving Repr, DecidableEq

/-- Model of `BuildingReport` dataclass. -/
structure BuildingReport where
  building_id : String
  report_date : ℚ
  total_alerts : ℕ
  critical_alerts : ℕ
  high_alerts : ℕ
  open_alerts : ℕ
  top_waste_leaks : List Alert
  total_monthly_waste_inr : ℚ
  total_annual_waste_inr : ℚ
  projected_annual_savings_if_fixed_inr : ℚ
  waste_by_category : List (String × ℚ)
  waste_by_floor : List (String × ℚ)
  waste_by_type : List (String × ℚ)
  total_recommendations : ℕ
  approved_recommendations : ℕ
  projected_payback_months : ℚ
  trend_vs_last_month : ℚ
  trend_vs_last_year : ℚ
  deriving Repr, DecidableEq

/-- Mutable state of an `AlertGenerator` instance. -/
structure GenState where
  cost_per_kwh_inr : ℚ
  alerts : List (String × Alert)
  recommendations : List (String × Recommendation)
  alert_counter : ℕ
  recommendation_counter : ℕ
  deriving Repr, DecidableEq

/-- Model of `AlertGenerator.__init__` with the default tariff. -/
def initGen : GenState :=
  { cost_per_kwh_inr := 8, alerts := [], recommendations := [],
    alert_counter := 0, recommendation_counter := 0 }

/-- Python `f"ALERT_{n:06d}"`: zero-pad to at least six digits. -/
def alertIdStr (n : ℕ) : String :=
  let s := toString n
  "ALERT_" ++ ⟨List.replicate (6 - s.length) '0'⟩ ++ s

/-- The `severity_map.get(risk_level, AlertSeverity.MEDIUM)` lookup. -/
def severityOfRisk (risk_level : String) : AlertSeverity :=
  if risk_level = "critical" then .critical
  else if risk_level = "high" then .high
  else if risk_level = "medium" then .medium
  else if risk_level = "low" then .low
  else .medium

/-- Split a character list at every space, Python `str.split(' ')`
style (consecutive separators produce empty words). -/
def splitOnSpace : List Char → List (List Char)
  | [] => [[]]
  | c :: cs =>
    if c = ' ' then [] :: splitOnSpace cs
    else
      match splitOnSpace cs with
      | [] => [[c]]
      | w :: ws => (c :: w) :: ws

/-- Python `str.title()` (modelled word-by-word on spaces: first letter
upper-cased, the rest lower-cased). -/
def titleCase (s : String) : String :=
  ⟨(List.intersperse [' ']
    ((splitOnSpace s.data).map (fun w =>
      match w.map Char.toLower with
      | [] => []
      | c :: cs => c.toUpper :: cs))).flatten⟩

/-- Python `f"{x:,.0f}"` (thousands separators omitted in the model —
no claim inspects the rendered digits). -/
def moneyFmt (q : ℚ) : String := toString (round q : ℤ)

/-- The `titles.get(waste_type, ...)` table of
`generate_alert_from_insight`. -/
def alertTitle (waste_type device_category : String) : String :=
  if waste_type = "phantom_load" then
    "Phantom Load: " ++ device_category ++ " consuming power 24/7"
  else if waste_type = "post_occupancy" then
    "Post-Occupancy Waste: " ++ device_category ++ " left on after hours"
  else if waste_type = "inefficient_usage" then
    "Inefficient Usage: " ++ device_category ++ " running suboptimally"
  else if waste_type = "normal" then
    "Notice: " ++ device_category ++ " operating normally"
  else "Energy Waste: " ++ waste_type

/-- Model of `AlertGenerator.generate_alert_from_insight`.  Always increments the
counter, mints a fresh id, sets `detection_count = 1` and stores the new
alert; no existing alert is consulted or updated. -/
def generate_alert_from_insight (now : ℚ) (s : GenState)
    (device_id device_category waste_type risk_level : String)
    (location_floor location_zone : Option String)
    (power_disparity_w hours_of_duration : ℚ)
    (occupancy_mismatch : Bool) (evidence : List String) :
    GenState × Alert :=
  let counter := s.alert_counter + 1
  let alert_id := alertIdStr counter
  let daily_wasted_kwh := power_disparity_w * hours_of_duration / 1000
  let daily_cost := daily_wasted_kwh * s.cost_per_kwh_inr
  let monthly_cost := daily_cost * 30
  let annual_cost := daily_cost * 365
  let severity := severityOfRisk risk_level
  let title := alertTitle waste_type device_category
  let description :=
    titleCase device_category ++ " wasting ₹" ++ moneyFmt annual_cost ++
      "/year (" ++ moneyFmt daily_cost ++ "/day). " ++
      (if occupancy_mismatch then
        "Device consuming power when building is unoccupied. " else "") ++
      "This includes recommended actions for cost recovery."
  let alert : Alert :=
    { alert_id := alert_id, severity := severity, title := title,
      description := description, location_floor := location_floor,
      location_zone := location_zone, device_id := device_id,
      device_category := device_category,
      daily_cost_loss_inr := daily_cost,
      monthly_cost_loss_inr := monthly_cost,
      annual_cost_loss_inr := annual_cost,
      waste_type := waste_type,
      pattern_frequency :=
        if 4 ≤ hours_of_duration then "recurring" else "periodic",
      first_detected := now, last_detected := now, detection_count := 1,
      evidence := evidence, occupancy_mismatch := occupancy_mismatch,
      status := "open", assigned_to := none, notes := none,
      recommendation_ids := [], created_at := now, updated_at := now }
  ({ s with alert_counter := counter,
            alerts := dictSet s.alerts alert_id alert }, alert)

/-- The Python exceptions the model distinguishes. -/
inductive PyErr where
  | nameError
  deriving Repr, DecidableEq

/-- Model of `AlertGenerator.build_building_report`.  The module
`alert_recommendation_system.py` never imports numpy, yet line 553 reads
`np.mean([...]) if self.recommendations else 0`, so with a non-empty
recommendation store the call raises `NameError: name 'np' is not
defined`; the model returns `Except.error PyErr.nameError` there. -/
def build_building_report (now : ℚ) (s : GenState) (building_id : String) :
    Except PyErr BuildingReport :=
  let all_alerts := s.alerts.map (fun p => p.2)
  let total_alerts := all_alerts.length
  let critical := (all_alerts.filter (fun a => a.severity = .critical)).length
  let high := (all_alerts.filter (fun a => a.severity = .high)).length
  let open_alerts := (all_alerts.filter (fun a => a.status = "open")).length
  let total_monthly := (all_alerts.map (fun a => a.monthly_cost_loss_inr)).sum
  let total_annual := (all_alerts.map (fun a => a.annual_cost_loss_inr)).sum
  let top_waste :=
    (sortLe (fun a b =>
      decide (b.annual_cost_loss_inr ≤ a.annual_cost_loss_inr)) all_alerts).take 3
  let waste_by_category := all_alerts.foldl
    (fun m a => dictAdd m a.device_category a.annual_cost_loss_inr) []
  let waste_by_floor := all_alerts.foldl
    (fun m a =>
      dictAdd m (orDefaultStr a.location_floor "Unknown")
        a.annual_cost_loss_inr) []
  let waste_by_type := all_alerts.foldl
    (fun m a => dictAdd m a.waste_type a.annual_cost_loss_inr) []
  let total_recs := s.recommendations.length
  let approved_recs :=
    (s.recommendations.filter (fun p => p.2.status = "approved")).length
  if !s.recommendations.isEmpty then
    Except.error PyErr.nameError
  else
    let payback : ℚ := 0
    let potential_savings :=
      (s.recommendations.map (fun p => p.2.estimated_annual_savings_inr)).sum
    Except.ok
      { building_id := building_id, report_date := now,
        total_alerts := total_alerts, critical_alerts := critical,
        high_alerts := high, open_alerts := open_alerts,
        top_waste_leaks := top_waste,
        total_monthly_waste_inr := total_monthly,
        total_annual_waste_inr := total_annual,
        projected_annual_savings_if_fixed_inr := potential_savings,
        waste_by_category := waste_by_category,
        waste_by_floor := waste_by_floor,
        waste_by_type := waste_by_type,
        total_recommendations := total_recs,
        approved_recommendations := approved_recs,
        projected_payback_months := payback,
        trend_vs_last_month := 0, trend_vs_last_year := 0 }

/-- Value the `payback` line of `build_building_report` intends to
compute (spec §4.7: mean payback across all recommendations, 0 if none
exist) — what line 553 would yield had numpy been imported.  Used to
state the divergence of the buggy line. -/
def intended_projected_payback (s : GenState) : ℚ :=
  if s.recommendations.isEmpty then 0
  else meanD (s.recommendations.map (fun p => p.2.payback_period_months))

/-! ## `learning_adaptation_agent.py` -/

/-- Model of `AdaptationMetrics` dataclass. -/
structure AdaptationMetrics where
  total_alerts_generated : ℕ
  validated_true_positives : ℕ
  validated_false_positives : ℕ
  validated_false_negatives : ℕ
  current_precision : ℚ
  current_recall : ℚ
  deriving Repr, DecidableEq

/-- Model of `AdaptationMetrics()` defaults. -/
def initMetrics : AdaptationMetrics :=
  { total_alerts_generated := 0, validated_true_positives := 0,
    validated_false_positives := 0, validated_false_negatives := 0,
    current_precision := 0.8, current_recall := 0.7 }

/-- The `f1_score` property. -/
def f1_score (m : AdaptationMetrics) : ℚ :=
  if m.current_precision + m.current_recall = 0 then 0
  else 2 * (m.current_precision * m.current_recall) /
    (m.current_precision + m.current_recall)

/-- Model of `ThresholdProfile` dataclass; times are in hours, so the Python
`(now - last_alert_time).total_seconds() / 3600` is `now - t` here. -/
structure ThresholdProfile where
  device_id : String
  device_category : String
  peak_hour_threshold_percent : ℚ
  off_peak_threshold_percent : ℚ
  night_threshold_percent : ℚ
  min_hours_between_alerts : ℚ
  min_deviation_for_alert : ℚ
  last_updated : ℚ
  last_alert_time : Option ℚ
  deriving Repr, DecidableEq

/-- Mutable state of a `LearningAdaptationAgent` (the seasonal and
occupancy profiles play no part in the claims and are omitted). -/
structure AgentState where
  building_id : String
  threshold_profiles : List (String × ThresholdProfile)
  metrics : AdaptationMetrics
  feedback_history : List (String × ℚ × String)
  deriving Repr, DecidableEq

/-- Model of `LearningAdaptationAgent.create_adaptive_threshold` (`now` stands for
the `datetime.now()` default of `last_updated`). -/
def create_adaptive_threshold (now : ℚ) (s : AgentState)
    (device_id device_category : String) : AgentState × ThresholdProfile :=
  let t : ℚ × ℚ × ℚ :=
    if toLowerStr device_category = "hvac" then (60, 30, 20)
    else if toLowerStr device_category = "lighting" then (70, 40, 10)
    else if toLowerStr device_category = "kitchen" then (50, 25, 15)
    else if toLowerStr device_category = "office" then (45, 20, 10)
    else (50, 25, 15)
  let profile : ThresholdProfile :=
    { device_id := device_id, device_category := device_category,
      peak_hour_threshold_percent := t.1,
      off_peak_threshold_percent := t.2.1,
      night_threshold_percent := t.2.2,
      min_hours_between_alerts := 24, min_deviation_for_alert := 50,
      last_updated := now, last_alert_time := none }
  ({ s with threshold_profiles :=
      dictSet s.threshold_profiles device_id profile }, profile)

/-- Counter update of `adapt_thresholds` for one feedback event. -/
def count_feedback (m0 : AdaptationMetrics) (severity : String) :
    AdaptationMetrics :=
  if severity = "true_positive" then
    { m0 with validated_true_positives := m0.validated_true_positives + 1 }
  else if severity = "false_positive" then
    { m0 with validated_false_positives := m0.validated_false_positives + 1 }
  else if severity = "false_negative" then
    { m0 with validated_false_negatives := m0.validated_false_negatives + 1 }
  else m0

/-- Precision/recall recomputation of `adapt_thresholds` (each guarded
by a non-zero denominator, keeping the prior value otherwise). -/
def recompute_rates (m1 : AdaptationMetrics) : AdaptationMetrics :=
  let m2 :=
    if 0 < m1.validated_true_positives + m1.validated_false_positives then
      { m1 with current_precision :=
          (m1.validated_true_positives : ℚ) /
            ((m1.validated_true_positives + m1.validated_false_positives : ℕ) : ℚ) }
    else m1
  if 0 < m2.validated_true_positives + m2.validated_false_negatives then
    { m2 with current_recall :=
        (m2.validated_true_positives : ℚ) /
          ((m2.validated_true_positives + m2.validated_false_negatives : ℕ) : ℚ) }
  else m2

/-- Combined metrics update of one `adapt_thresholds` call. -/
def update_metrics (m0 : AdaptationMetrics) (severity : String) :
    AdaptationMetrics :=
  recompute_rates (count_feedback m0 severity)

/-- Tightening applied to a profile when precision is too low: multiply
the peak and off-peak thresholds by 1.1 and stamp `last_updated`. -/
def tighten (now : ℚ) (t : ThresholdProfile) : ThresholdProfile :=
  { t with
    peak_hour_threshold_percent := t.peak_hour_threshold_percent * 1.1,
    off_peak_threshold_percent := t.off_peak_threshold_percent * 1.1,
    last_updated := now }

/-- Model of `LearningAdaptationAgent.adapt_thresholds`
(`feedback['severity']` passed as `severity`).  The profile is tightened
when the device has a profile and the freshly recomputed precision is
below 0.6. -/
def adapt_thresholds (now : ℚ) (s : AgentState)
    (device_id severity : String) : AgentState :=
  { s with
    metrics := update_metrics s.metrics severity,
    threshold_profiles :=
      if (lookup s.threshold_profiles device_id).isSome ∧
          (update_metrics s.metrics severity).current_precision < 0.6 then
        s.threshold_profiles.map (fun p =>
          if p.1 = device_id then (p.1, tighten now p.2) else p)
      else s.threshold_profiles,
    feedback_history := s.feedback_history ++ [(device_id, now, severity)] }

/-- Model of `LearningAdaptationAgent.should_alert`.  Note the order of the
checks in the source: the dampening window and the F1 gate both `return
False` *before* the `severity == 'critical'` test is ever reached, so
that test (and the final `return True`) can only ever return `True`. -/
def should_alert (now : ℚ) (s : AgentState)
    (device_id severity : String) : Bool :=
  match lookup s.threshold_profiles device_id with
  | none => true
  | some profile =>
    let dampened :=
      match profile.last_alert_time with
      | some t => decide (now - t < profile.min_hours_between_alerts)
      | none => false
    if dampened then false
    else if f1_score s.metrics < 0.5 then false
    else if severity = "critical" then true
    else true

/-! ## Concrete inputs used by witnesses and counterexamples -/

/-- A 10 W `computer` reading during an unoccupied hour: classified as
phantom load, so its full energy is counted as waste. -/
def rPhantomComputer : Reading :=
  { timestamp := 10, device_id := "COMP_1", device_category := "computer",
    power_w := 10, occupancy_status := "unoccupied",
    location_floor := "1", location_zone := "A" }

/-- A 400 W `hvac` reading during an unoccupied hour. -/
def rHvac400 : Reading :=
  { timestamp := 14, device_id := "HVAC_3", device_category := "hvac",
    power_w := 400, occupancy_status := "unoccupied",
    location_floor := "2", location_zone := "B" }

/-- A two-device batch producing two differently priced issues. -/
def twoDeviceBatch : List Reading := [rPhantomComputer, rHvac400]

/-- A 300 W unoccupied `hvac` reading: satisfies both the phantom-load
conditions (0 < 300 ≤ 3 × 200) and, against `bHvac50`, the
unoccupied-usage conditions (300 > 50 + 100). -/
def rHvac300 : Reading :=
  { timestamp := 11, device_id := "HVAC_9", device_category := "hvac",
    power_w := 300, occupancy_status := "unoccupied",
    location_floor := "2", location_zone := "B" }

/-- An hvac baseline with a 50 W unoccupied baseline. -/
def bHvac50 : Baseline :=
  { avg_power := 300, max_power := 600, min_power := 50,
    occupied_baseline := 600, unoccupied_baseline := some 50,
    after_hours_baseline := some 50, category := "hvac",
    location := "2, B" }

/-- Reading `i` of the exempt-server scenario: category `server`,
3800 W, unoccupied, consecutive hours. -/
def mkServerReading (i : ℕ) : Reading :=
  { timestamp := i, device_id := "SERVER_1", device_category := "server",
    power_w := 3800, occupancy_status := "unoccupied",
    location_floor := "3", location_zone := "C" }

/-- The spec scenario: 48 consecutive unoccupied hourly readings of an
exempt `server` device at 3800 W. -/
def serverBatch : List Reading := (List.range 48).map mkServerReading

/-- A three-reading batch with an hvac device (one occupied, one
unoccupied sample) and a computer device. -/
def mixedBatch : List Reading :=
  [{ timestamp := 10, device_id := "HVAC_X", device_category := "hvac",
     power_w := 900, occupancy_status := "occupied",
     location_floor := "1", location_zone := "A" },
   { timestamp := 20, device_id := "HVAC_X", device_category := "hvac",
     power_w := 180, occupancy_status := "unoccupied",
     location_floor := "1", location_zone := "A" },
   { timestamp := 21, device_id := "COMP_2", device_category := "computer",
     power_w := 60, occupancy_status := "unoccupied",
     location_floor := "1", location_zone := "B" }]

/-- The hvac baseline `learn_baselines` derives from `mixedBatch`. -/
def bHvacX : Baseline := deviceBaseline
  (mixedBatch.filter (fun r => r.device_id = "HVAC_X"))

/-- A stored recommendation (the smart-power-strip template instantiated
by hand), enough to make the recommendation store non-empty. -/
def recSmartStrip : Recommendation :=
  { recommendation_id := "REC_000001", alert_id := "ALERT_000001",
    rec_type := "automation", title := "Install Smart Power Strip",
    description := "Smart outlet with motion sensor and schedule timer.",
    estimated_annual_savings_inr := 1000, implementation_cost_inr := 800,
    payback_period_months := 0.5, confidence_percent := 92,
    responsible_team := "operations", estimated_implementation_days := 1,
    required_uptime_impact := "none", priority := .high, urgency := "high",
    status := "proposed" }

/-- An `AlertGenerator` whose recommendation store holds one entry. -/
def genWithRec : GenState :=
  { initGen with recommendations := [("REC_000001", recSmartStrip)] }

/-- A threshold profile whose last alert fired at hour 100
(`min_hours_between_alerts` is the default 24). -/
def profRecentAlert : ThresholdProfile :=
  { device_id := "HVAC_1", device_category := "hvac",
    peak_hour_threshold_percent := 60, off_peak_threshold_percent := 30,
    night_threshold_percent := 20, min_hours_between_alerts := 24,
    min_deviation_for_alert := 50, last_updated := 0,
    last_alert_time := some 100 }

/-- Agent state inside the dampening window with healthy metrics
(default precision 0.8, recall 0.7, so F1 ≈ 0.747 ≥ 0.5). -/
def agentInWindow : AgentState :=
  { building_id := "B1", threshold_profiles := [("HVAC_1", profRecentAlert)],
    metrics := initMetrics, feedback_history := [] }

/-- Metrics whose precision and recall are both 0.2, giving F1 = 0.2. -/
def metricsLow : AdaptationMetrics :=
  { initMetrics with current_precision := 0.2, current_recall := 0.2 }

/-- Agent state outside any dampening window but with F1 = 0.2 < 0.5. -/
def agentLowF1 : AgentState :=
  { building_id := "B1",
    threshold_profiles :=
      [("HVAC_1", { profRecentAlert with last_alert_time := none })],
    metrics := metricsLow,
    feedback_history := [] }

/-- A default-threshold profile for device `D1` (category defaults:
50 / 25 / 15 percent). -/
def profD1 : ThresholdProfile :=
  { device_id := "D1", device_category := "computer",
    peak_hour_threshold_percent := 50, off_peak_threshold_percent := 25,
    night_threshold_percent := 15, min_hours_between_alerts := 24,
    min_deviation_for_alert := 50, last_updated := 0,
    last_alert_time := none }

/-- Agent state with a default-threshold profile for device `D1` and
fresh metrics (no validated feedback yet). -/
def agentFresh : AgentState :=
  { building_id := "B1",
    threshold_profiles := [("D1", profD1)],
    metrics := initMetrics, feedback_history := [] }

/-- First call of the identical-resubmission experiment: one
phantom-load insight for `HVAC_1` submitted to a fresh generator. -/
def genAfterFirst : GenState × Alert :=
  generate_alert_from_insight 0 initGen "HVAC_1" "hvac" "phantom_load"
    "high" (some "1") (some "A") 100 5 true []

/-- Second call: the identical insight resubmitted immediately (well
within any `min_hours_between_alerts` window). -/
def genAfterSecond : GenState × Alert :=
  generate_alert_from_insight 0 genAfterFirst.1 "HVAC_1" "hvac"
    "phantom_load" "high" (some "1") (some "A") 100 5 true []

/-! ## Helper lemmas -/

theorem mem_insertLe {α : Type} (le : α → α → Bool) (x : α) :
    ∀ (l : List α) (a : α), a ∈ insertLe le x l → a = x ∨ a ∈ l := by
  intro l
  induction l with
  | nil =>
    intro a ha
    exact Or.inl (by simpa [insertLe] using ha)
  | cons y ys ih =>
    intro a ha
    by_cases hxy : le x y = true
    · simp only [insertLe, hxy, if_true, List.mem_cons] at ha
      rcases ha with h | h | h
      · exact Or.inl h
      · exact Or.inr (by simp [h])
      · exact Or.inr (List.mem_cons_of_mem _ h)
    · simp only [insertLe, hxy, if_false, Bool.false_eq_true, List.mem_cons] at ha
      rcases ha with h | h
      · exact Or.inr (by simp [h])
      · rcases ih a h with h' | h'
        · exact Or.inl h'
        · exact Or.inr (List.mem_cons_of_mem _ h')

theorem mem_sortLe {α : Type} (le : α → α → Bool) :
    ∀ (l : List α) (a : α), a ∈ sortLe le l → a ∈ l := by
  intro l
  induction l with
  | nil => intro a ha; simp [sortLe] at ha
  | cons x xs ih =>
    intro a ha
    rcases mem_insertLe le x _ a ha with h | h
    · simp [h]
    · exact List.mem_cons_of_mem _ (ih a h)

theorem pairwise_insertLe {α : Type} (le : α → α → Bool)
    (htot : ∀ a b, le a b = true ∨ le b a = true)
    (htrans : ∀ a b c, le a b = true → le b c = true → le a c = true)
    (x : α) :
    ∀ (l : List α), l.Pairwise (fun a b => le a b = true) →
      (insertLe le x l).Pairwise (fun a b => le a b = true) := by
  intro l
  induction l with
  | nil => intro _; simp [insertLe]
  | cons y ys ih =>
    intro hl
    rw [List.pairwise_cons] at hl
    by_cases hxy : le x y = true
    · simp only [insertLe, hxy, if_true]
      refine List.Pairwise.cons ?_ (List.Pairwise.cons hl.1 hl.2)
      intro b hb
      rcases hb with _ | hb
      · exact hxy
      · exact htrans x y b hxy (hl.1 b (by assumption))
    · simp only [insertLe, hxy, if_false, Bool.false_eq_true]
      refine List.Pairwise.cons ?_ (ih hl.2)
      intro b hb
      rcases mem_insertLe le x ys b hb with h | h
      · rw [h]
        rcases htot x y with h' | h'
        · exact absurd h' hxy
        · exact h'
      · exact hl.1 b h

theorem pairwise_sortLe {α : Type} (le : α → α → Bool)
    (htot : ∀ a b, le a b = true ∨ le b a = true)
    (htrans : ∀ a b c, le a b = true → le b c = true → le a c = true) :
    ∀ (l : List α), (sortLe le l).Pairwise (fun a b => le a b = true) := by
  intro l
  induction l with
  | nil => simp [sortLe]
  | cons x xs ih => exact pairwise_insertLe le htot htrans x _ ih


theorem lookup_cons_of_ne {β : Type} (p : String × β)
    (m : List (String × β)) (k : String) (hp : p.1 ≠ k) :
    lookup (p :: m) k = lookup m k := by
  unfold lookup
  rw [List.find?_cons_of_neg _ (by simpa using hp)]

theorem lookup_cons_of_eq {β : Type} (p : String × β)
    (m : List (String × β)) (k : String) (hp : p.1 = k) :
    lookup (p :: m) k = some p.2 := by
  unfold lookup
  rw [List.find?_cons_of_pos _ (by simpa using hp)]
  rfl

theorem lookup_map_update_ne {β : Type} (k id : String) (f : β → β)
    (hk : k ≠ id) :
    ∀ (m : List (String × β)),
      lookup (m.map (fun p => if p.1 = id then (id, f p.2) else p)) k =
        lookup m k := by
  intro m
  induction m with
  | nil => rfl
  | cons p ps ih =>
    by_cases hp : p.1 = id
    · rw [List.map_cons, if_pos hp,
        lookup_cons_of_ne _ _ _ (fun h => hk h.symm),
        lookup_cons_of_ne _ _ _ (by rw [hp]; exact fun h => hk h.symm)]
      exact ih
    · rw [List.map_cons, if_neg hp]
      by_cases hpk : p.1 = k
      · rw [lookup_cons_of_eq _ _ _ hpk, lookup_cons_of_eq _ _ _ hpk]
      · rw [lookup_cons_of_ne _ _ _ hpk, lookup_cons_of_ne _ _ _ hpk]
        exact ih

theorem lookup_append_ne {β : Type} (m : List (String × β))
    (k id : String) (v : β) (hk : k ≠ id) :
    lookup (m ++ [(id, v)]) k = lookup m k := by
  unfold lookup
  rw [List.find?_append]
  have h1 : ([(id, v)].find? (fun p => p.1 = k)) = none := by
    rw [List.find?_cons_of_neg _ (by simpa using fun h => hk h.symm)]
    rfl
  cases hm : m.find? (fun p => p.1 = k) with
  | none => simp [h1]
  | some p => simp

theorem find?_of_lookup_none {β : Type} (m : List (String × β))
    (id : String) (h : lookup m id = none) :
    m.find? (fun p => p.1 = id) = none := by
  unfold lookup at h
  cases hm : m.find? (fun p => p.1 = id) with
  | none => rfl
  | some p => rw [hm] at h; simp at h

theorem dictSet_of_absent {β : Type} (m : List (String × β)) (id : String)
    (v : β) (h : lookup m id = none) : dictSet m id v = m ++ [(id, v)] := by
  unfold dictSet
  simp [find?_of_lookup_none m id h]

theorem lookup_dictSet_ne {β : Type} (m : List (String × β))
    (k id : String) (v : β) (hk : k ≠ id) :
    lookup (dictSet m id v) k = lookup m k := by
  unfold dictSet
  by_cases hfound : (m.find? (fun p => p.1 = id)).isSome
  · rw [if_pos hfound]
    exact lookup_map_update_ne k id (fun _ => v) hk m
  · rw [if_neg hfound]
    exact lookup_append_ne m k id v hk

theorem lookup_map_update {β : Type} (d : String) (f : β → β) :
    ∀ (m : List (String × β)),
      lookup (m.map (fun p => if p.1 = d then (p.1, f p.2) else p)) d =
        (lookup m d).map f := by
  intro m
  induction m with
  | nil => rfl
  | cons p ps ih =>
    by_cases hp : p.1 = d
    · rw [List.map_cons, if_pos hp, lookup_cons_of_eq (p.1, f p.2) _ _ hp,
        lookup_cons_of_eq p _ _ hp]
      rfl
    · rw [List.map_cons, if_neg hp, lookup_cons_of_ne _ _ _ hp,
        lookup_cons_of_ne _ _ _ hp]
      exact ih

theorem lookup_map_key {β : Type} (f : String → β) :
    ∀ (keys : List String) (d : String) (b : β),
      lookup (keys.map (fun k => (k, f k))) d = some b →
      d ∈ keys ∧ b = f d := by
  intro keys
  induction keys with
  | nil => intro d b h; simp [lookup] at h
  | cons k ks ih =>
    intro d b h
    by_cases hk : k = d
    · subst hk
      rw [List.map_cons, lookup_cons_of_eq _ _ _ rfl] at h
      injection h with h'
      exact ⟨List.mem_cons_self _ _, h'.symm⟩
    · rw [List.map_cons, lookup_cons_of_ne _ _ _ hk] at h
      have := ih d b h
      exact ⟨List.mem_cons_of_mem _ this.1, this.2⟩

theorem mem_uniqueVals {α : Type} (f : α → String) :
    ∀ (l : List α) (acc : List String) (x : String),
      x ∈ l.foldl (fun acc a => if f a ∈ acc then acc else acc ++ [f a]) acc →
      x ∈ acc ∨ ∃ a ∈ l, f a = x := by
  intro l
  induction l with
  | nil => intro acc x h; exact Or.inl h
  | cons a as ih =>
    intro acc x h
    simp only [List.foldl_cons] at h
    rcases ih _ x h with h' | h'
    · by_cases hfa : f a ∈ acc
      · rw [if_pos hfa] at h'
        exact Or.inl h'
      · rw [if_neg hfa] at h'
        rcases List.mem_append.mp h' with h'' | h''
        · exact Or.inl h''
        · refine Or.inr ⟨a, List.mem_cons_self _ _, ?_⟩
          exact (by simpa using h'' : x = f a).symm
    · rcases h' with ⟨b, hb, hfb⟩
      exact Or.inr ⟨b, List.mem_cons_of_mem _ hb, hfb⟩

theorem meanQ_nonneg (l : List ℚ) (hl : ∀ x ∈ l, 0 ≤ x) (q : ℚ)
    (h : meanQ l = some q) : 0 ≤ q := by
  unfold meanQ at h
  by_cases he : l.isEmpty
  · simp [he] at h
  · rw [if_neg he] at h
    have hq : q = l.sum / (l.length : ℚ) := by
      injection h with h'
      exact h'.symm
    rw [hq]
    exact div_nonneg (List.sum_nonneg hl) (by positivity)

/-- Positions of learned baselines: the optional (possibly-NaN)
unoccupied and after-hours baselines are never negative when every
power reading is nonnegative. -/
theorem learned_baseline_nonneg (l : List Reading)
    (hl : ∀ r ∈ l, 0 ≤ r.power_w) (d : String) (b : Baseline)
    (h : lookup (learn_baselines l) d = some b) :
    (∀ x, b.unoccupied_baseline = some x → 0 ≤ x) ∧
    (∀ x, b.after_hours_baseline = some x → 0 ≤ x) := by
  unfold learn_baselines at h
  have hb := (lookup_map_key _ _ d b h).2
  subst hb
  unfold deviceBaseline
  have hrows : ∀ x ∈ ((l.filter (fun r => r.device_id = d)).filter
      (fun r => r.occupancy_status = "unoccupied")).map (fun r => r.power_w),
      0 ≤ x := by
    intro x hx
    rcases List.mem_map.mp hx with ⟨r, hr, hrx⟩
    rw [← hrx]
    exact hl r (List.mem_of_mem_filter (List.mem_of_mem_filter hr))
  constructor
  · intro x hx
    simp only at hx
    split at hx
    · exact meanQ_nonneg _ hrows x hx
    · injection hx with hx'
      rw [← hx']
  · intro x hx
    simp only at hx
    split at hx
    · exact meanQ_nonneg _ hrows x hx
    · injection hx with hx'
      rw [← hx']

/-- Per-record conservation: with nonnegative power and nonnegative
(non-NaN) baselines, a record's wasted energy never exceeds its
energy. -/
theorem classifyRecord_wasted_le (r : Reading) (b : Baseline)
    (hp : 0 ≤ r.power_w)
    (hu : ∀ x, b.unoccupied_baseline = some x → 0 ≤ x)
    (ha : ∀ x, b.after_hours_baseline = some x → 0 ≤ x) :
    (classifyRecord r b).wasted_energy_kwh ≤ energy_kwh r := by
  unfold classifyRecord energy_kwh duration_hours
  have h1000 : (0 : ℚ) < 1000 := by norm_num
  split
  · simp
  · split
    · split
      case _ x heq =>
        simp only [mul_one]
        rw [div_le_div_iff_of_pos_right h1000]
        exact max_le (by linarith [hu x heq])
          (sub_le_self _ (hu x heq))
      case _ heq =>
        simp only [mul_one]
        positivity
    · split
      · split
        case _ x heq =>
          simp only [mul_one]
          rw [div_le_div_iff_of_pos_right h1000]
          exact max_le (by linarith [ha x heq])
            (sub_le_self _ (ha x heq))
        case _ heq =>
          simp only [mul_one]
          positivity
      · simp only [mul_one]
        positivity

/-! ## Claim theorems -/

/-- C9: calling `analyze` with an empty reading list returns the
well-defined neutral report: `total_energy_kwh = 0`,
`efficiency_score = 100` and `issues = []` (it is exactly
`_empty_report`), rather than raising an error. -/
theorem c9_empty_input_neutral_report (cost_per_kwh : ℚ) :
    analyze cost_per_kwh [] = empty_report ∧
    (analyze cost_per_kwh []).total_energy_kwh = 0 ∧
    (analyze cost_per_kwh []).efficiency_score = 100 ∧
    (analyze cost_per_kwh []).issues = [] :=
  ⟨rfl, rfl, rfl, rfl⟩

/-- C2: a reading satisfying both the phantom-load and the
unoccupied-usage conditions is classified `phantom_load` (priority 1
wins), and every reading receives exactly one of the four categories
(the priority order is total, so no reading is counted twice). -/
theorem c2_phantom_priority (r : Reading) (b : Baseline) :
    (is_phantom_load r b = true → is_unoccupied_usage r b = true →
      (classifyRecord r b).waste_category = "phantom_load") ∧
    ((classifyRecord r b).waste_category = "phantom_load" ∨
     (classifyRecord r b).waste_category = "unoccupied_usage" ∨
     (classifyRecord r b).waste_category = "after_hours" ∨
     (classifyRecord r b).waste_category = "normal") := by
  constructor
  · intro hp _
    unfold classifyRecord
    rw [if_pos hp]
  · unfold classifyRecord
    split
    · exact Or.inl rfl
    · split
      · split
        · exact Or.inr (Or.inl rfl)
        · exact Or.inr (Or.inr (Or.inr rfl))
      · split
        · split
          · exact Or.inr (Or.inr (Or.inl rfl))
          · exact Or.inr (Or.inr (Or.inr rfl))
        · exact Or.inr (Or.inr (Or.inr rfl))

/-- Witness for C2: a 300 W unoccupied hvac reading against a 50 W
unoccupied baseline satisfies both rule conditions and resolves to
`phantom_load`. -/
theorem c2_phantom_priority_witness :
    (classifyRecord rHvac300 bHvac50).waste_category = "phantom_load" :=
  (c2_phantom_priority rHvac300 bHvac50).1 (by decide) (by decide)

set_option maxRecDepth 40000 in
/-- C6: a reading whose baseline category (lower-cased) is in the exempt
set {fridge, freezer, server, security, router} is always classified
`normal` with excess 0; in particular all 48 unoccupied 3800 W readings
of the category-`server` device classify `normal` and `analyze` emits
zero issues for that batch. -/
theorem c6_exempt_always_normal :
    (∀ (r : Reading) (b : Baseline),
      exemptCategories.contains (toLowerStr b.category) = true →
      (classifyRecord r b).waste_category = "normal" ∧
      (classifyRecord r b).excess_power_w = 0) ∧
    ((classifyAll (sortReadings serverBatch)
        (learn_baselines (sortReadings serverBatch))).all
      (fun c => c.waste_category = "normal") = true) ∧
    (analyze 8 serverBatch).issues = [] := by
  refine ⟨?_, by decide, by decide⟩
  intro r b h
  have hp : is_phantom_load r b = false := by
    unfold is_phantom_load
    dsimp only
    rw [if_pos h]
  have hu : is_unoccupied_usage r b = false := by
    unfold is_unoccupied_usage
    dsimp only
    rw [if_pos h]
  have ha : is_after_hours r b = false := by
    unfold is_after_hours
    dsimp only
    rw [if_pos h]
  unfold classifyRecord
  rw [hp, hu, ha]
  simp

set_option maxRecDepth 40000 in
/-- Witness for C6: one of the server readings, classified against the
baseline actually learned from the batch. -/
theorem c6_exempt_always_normal_witness :
    (classifyRecord (mkServerReading 0)
      ((lookup (learn_baselines (sortReadings serverBatch))
        "SERVER_1").getD defaultBaseline)).waste_category = "normal" :=
  (c6_exempt_always_normal.1 (mkServerReading 0)
    ((lookup (learn_baselines (sortReadings serverBatch))
      "SERVER_1").getD defaultBaseline) (by decide)).1

/-- C4 (code bug): `should_alert` returns `False` for severity
`critical` both inside the dampening window (first conjunct: last alert
1 h ago with a 24 h minimum and healthy metrics) and under the F1 gate
(second conjunct: no recent alert but F1 = 0.2 < 0.5), because the
`severity == 'critical'` test is only reached after both suppression
branches have already returned — contrary to the claim (and the code's
own comment) that critical always alerts. -/
theorem c4_critical_does_not_override :
    should_alert 101 agentInWindow "HVAC_1" "critical" = false ∧
    should_alert 200 agentLowF1 "HVAC_1" "critical" = false := by
  decide

/-- C7 (code bug): with a non-empty recommendation store,
`build_building_report` raises `NameError` (numpy is used on line 553
but never imported), instead of returning the mean payback (here 0.5);
with an empty store it returns a report whose
`projected_payback_months` is 0 as claimed. -/
theorem c7_payback_name_error :
    build_building_report 0 genWithRec "B1" = Except.error PyErr.nameError ∧
    (build_building_report 0 initGen "B1").map
      (fun r => r.projected_payback_months) = Except.ok 0 ∧
    intended_projected_payback genWithRec = 1/2 :=
  ⟨rfl, rfl, by norm_num [intended_projected_payback, genWithRec, meanD,
    recSmartStrip, initGen]⟩

/-- C3 counterexample: resubmitting the identical phantom-load insight
for the same device immediately (well within any
`min_hours_between_alerts` window) creates a second Alert id
(`ALERT_000002` next to `ALERT_000001`), and the first alert's
`detection_count` stays 1 instead of being incremented. -/
theorem c3_dedup_counterexample :
    genAfterSecond.1.alerts.map Prod.fst =
      ["ALERT_000001", "ALERT_000002"] ∧
    (lookup genAfterSecond.1.alerts "ALERT_000001").map
      (fun a => a.detection_count) = some 1 ∧
    (lookup genAfterSecond.1.alerts "ALERT_000002").map
      (fun a => a.detection_count) = some 1 ∧
    genAfterFirst.2.device_id = genAfterSecond.2.device_id ∧
    genAfterFirst.2.waste_type = genAfterSecond.2.waste_type ∧
    genAfterFirst.2.alert_id ≠ genAfterSecond.2.alert_id := by
  decide

/-- C3 amended: `generate_alert_from_insight` performs no
deduplication: every call — identical resubmissions included — mints a
fresh id from the incremented counter, stores a brand-new alert with
`detection_count = 1`, and leaves every previously stored alert (and in
particular its `detection_count` and `last_detected`) untouched. -/
theorem c3_no_dedup (now : ℚ) (s : GenState)
    (device_id device_category waste_type risk_level : String)
    (location_floor location_zone : Option String)
    (power_disparity_w hours_of_duration : ℚ)
    (occupancy_mismatch : Bool) (evidence : List String)
    (out : GenState × Alert)
    (hout : generate_alert_from_insight now s device_id device_category
      waste_type risk_level location_floor location_zone power_disparity_w
      hours_of_duration occupancy_mismatch evidence = out)
    (hfresh : lookup s.alerts (alertIdStr (s.alert_counter + 1)) = none) :
    out.2.detection_count = 1 ∧
    out.2.alert_id = alertIdStr (s.alert_counter + 1) ∧
    out.1.alert_counter = s.alert_counter + 1 ∧
    out.1.alerts = s.alerts ++ [(alertIdStr (s.alert_counter + 1), out.2)] ∧
    (∀ k, k ≠ alertIdStr (s.alert_counter + 1) →
      lookup out.1.alerts k = lookup s.alerts k) := by
  subst hout
  unfold generate_alert_from_insight
  refine ⟨rfl, rfl, rfl, dictSet_of_absent _ _ _ hfresh, ?_⟩
  intro k hk
  exact lookup_dictSet_ne _ _ _ _ hk

/-- Witness for C3 amended: the first call of the resubmission
experiment on a fresh generator. -/
theorem c3_no_dedup_witness :
    genAfterFirst.2.detection_count = 1 ∧
    genAfterFirst.2.alert_id = alertIdStr 1 ∧
    genAfterFirst.1.alert_counter = 1 ∧
    genAfterFirst.1.alerts =
      initGen.alerts ++ [(alertIdStr 1, genAfterFirst.2)] := by
  have h := c3_no_dedup 0 initGen "HVAC_1" "hvac" "phantom_load" "high"
    (some "1") (some "A") 100 5 true [] genAfterFirst rfl (by decide)
  exact ⟨h.1, h.2.1, h.2.2.1, h.2.2.2.1⟩

/-- Membership in `uniqueVals` comes from a list element. -/
theorem exists_of_mem_uniqueVals {α : Type} (f : α → String) (l : List α)
    (x : String) (h : x ∈ uniqueVals f l) : ∃ a ∈ l, f a = x := by
  unfold uniqueVals at h
  rcases mem_uniqueVals f l [] x h with h0 | h0
  · simp at h0
  · exact h0

/-- Nonnegativity of the optional baselines of the `{}` fallback dict. -/
theorem defaultBaseline_nonneg :
    (∀ x, defaultBaseline.unoccupied_baseline = some x → 0 ≤ x) ∧
    (∀ x, defaultBaseline.after_hours_baseline = some x → 0 ≤ x) := by
  constructor <;> intro x hx <;>
    (injection hx with hx'; rw [← hx'])

/-- C1 counterexample: a single 10 W unoccupied `computer` reading is
classified phantom load, so its full energy is wasted and the sum of
`wasted_energy_kwh` after classification (and the safety check) equals
the batch total — strictly above 0.95 × total, because the code only
rescales when wasted exceeds the total itself. -/
theorem c1_conservation_counterexample :
    ¬ (sumWasted (classifiedPass [rPhantomComputer]) ≤
      0.95 * totalEnergy (sortReadings [rPhantomComputer])) := by
  decide

/-- C1 amended: for batches of nonnegative-power readings the
post-classification invariant that actually holds is
`sum(wasted_energy_kwh) ≤ total_energy_kwh` (not `0.95 × total`); the
uniform rescale by `0.95 × total / wasted_sum` fires only when the
wasted sum strictly exceeds the total, which never happens for such
batches, so the classification pass is returned unscaled. -/
theorem c1_conservation_amended (rs : List Reading)
    (h : ∀ r ∈ rs, 0 ≤ r.power_w) :
    sumWasted (classifiedPass rs) ≤ totalEnergy (sortReadings rs) ∧
    classifiedPass rs =
      classifyAll (sortReadings rs) (learn_baselines (sortReadings rs)) := by
  have hdf : ∀ r ∈ sortReadings rs, 0 ≤ r.power_w :=
    fun r hr => h r (mem_sortLe _ rs r hr)
  have hrec : ∀ r ∈ sortReadings rs,
      (classifyRecord r ((lookup (learn_baselines (sortReadings rs))
        r.device_id).getD defaultBaseline)).wasted_energy_kwh ≤
        energy_kwh r := by
    intro r hr
    cases hb : lookup (learn_baselines (sortReadings rs)) r.device_id with
    | none =>
      exact classifyRecord_wasted_le r defaultBaseline (hdf r hr)
        defaultBaseline_nonneg.1 defaultBaseline_nonneg.2
    | some b =>
      have hnn := learned_baseline_nonneg (sortReadings rs) hdf
        r.device_id b hb
      exact classifyRecord_wasted_le r b (hdf r hr) hnn.1 hnn.2
  have hle : sumWasted (classifyAll (sortReadings rs)
      (learn_baselines (sortReadings rs))) ≤ totalEnergy (sortReadings rs) := by
    unfold sumWasted classifyAll totalEnergy
    rw [List.map_map]
    exact List.sum_le_sum hrec
  have heq : classifiedPass rs = classifyAll (sortReadings rs)
      (learn_baselines (sortReadings rs)) := by
    unfold classifiedPass applyConservation
    rw [if_neg (not_lt.mpr hle)]
  exact ⟨heq ▸ hle, heq⟩

/-- Witness for C1 amended: the two-device batch satisfies the
invariant `wasted ≤ total`. -/
theorem c1_conservation_amended_witness :
    sumWasted (classifiedPass twoDeviceBatch) ≤
      totalEnergy (sortReadings twoDeviceBatch) :=
  (c1_conservation_amended twoDeviceBatch (by decide)).1

/-- C10: for every non-empty batch, the issues of the returned report
are sorted in non-increasing order of `cost_per_day` (the final
`issues.sort(key=cost_per_day, reverse=True)`). -/
theorem c10_issues_sorted_desc (cost_per_kwh : ℚ) (rs : List Reading)
    (h : rs ≠ []) :
    (analyze cost_per_kwh rs).issues.Pairwise
      (fun a b => b.cost_per_day ≤ a.cost_per_day) := by
  have hne : rs.isEmpty = false := by
    cases rs with
    | nil => exact absurd rfl h
    | cons a l => rfl
  have hiss : (analyze cost_per_kwh rs).issues =
      sortLe (fun a b => decide (b.cost_per_day ≤ a.cost_per_day))
        (generate_issues_from_classified_data cost_per_kwh
          (classifiedPass rs) (learn_baselines (sortReadings rs))) := by
    unfold analyze
    rw [hne]
    rfl
  rw [hiss]
  refine List.Pairwise.imp ?_ (pairwise_sortLe _ ?_ ?_ _)
  · intro a b hab
    exact of_decide_eq_true hab
  · intro a b
    rcases le_total b.cost_per_day a.cost_per_day with h' | h'
    · exact Or.inl (decide_eq_true h')
    · exact Or.inr (decide_eq_true h')
  · intro a b c hab hbc
    exact decide_eq_true
      (le_trans (of_decide_eq_true hbc) (of_decide_eq_true hab))

/-- Witness for C10: the two-device batch produces a report whose two
issues are listed most-expensive first. -/
theorem c10_issues_sorted_desc_witness :
    (analyze 8 twoDeviceBatch).issues.Pairwise
      (fun a b => b.cost_per_day ≤ a.cost_per_day) :=
  c10_issues_sorted_desc 8 twoDeviceBatch (by decide)

/-- C5: a `false_positive` feedback event that leaves the recomputed
precision below 0.6 multiplies the device's peak-hour and off-peak
thresholds by 1.1 — a strict increase for (always positive) thresholds
— and stamps `last_updated := now`; and no feedback event of any kind
ever lowers either threshold. -/
theorem c5_threshold_tightening (now : ℚ) (s : AgentState) (d : String)
    (p : ThresholdProfile)
    (hp : lookup s.threshold_profiles d = some p)
    (hpk : 0 < p.peak_hour_threshold_percent)
    (hop : 0 < p.off_peak_threshold_percent) :
    ((adapt_thresholds now s d "false_positive").metrics.current_precision
        < 0.6 →
      lookup (adapt_thresholds now s d "false_positive").threshold_profiles d
          = some (tighten now p) ∧
      (tighten now p).peak_hour_threshold_percent =
        p.peak_hour_threshold_percent * 1.1 ∧
      (tighten now p).off_peak_threshold_percent =
        p.off_peak_threshold_percent * 1.1 ∧
      p.peak_hour_threshold_percent <
        (tighten now p).peak_hour_threshold_percent ∧
      p.off_peak_threshold_percent <
        (tighten now p).off_peak_threshold_percent ∧
      (tighten now p).last_updated = now) ∧
    (∀ severity p',
      lookup (adapt_thresholds now s d severity).threshold_profiles d
          = some p' →
      p.peak_hour_threshold_percent ≤ p'.peak_hour_threshold_percent ∧
      p.off_peak_threshold_percent ≤ p'.off_peak_threshold_percent) := by
  constructor
  · intro hlt
    have hcond : (lookup s.threshold_profiles d).isSome ∧
        (update_metrics s.metrics "false_positive").current_precision
          < 0.6 := by
      refine ⟨by rw [hp]; rfl, ?_⟩
      exact hlt
    refine ⟨?_, rfl, rfl, ?_, ?_, rfl⟩
    · unfold adapt_thresholds
      dsimp only
      rw [if_pos hcond, lookup_map_update, hp]
      rfl
    · show p.peak_hour_threshold_percent <
        p.peak_hour_threshold_percent * 1.1
      nlinarith [hpk]
    · show p.off_peak_threshold_percent <
        p.off_peak_threshold_percent * 1.1
      nlinarith [hop]
  · intro severity p' hp'
    by_cases hc : (lookup s.threshold_profiles d).isSome ∧
        (update_metrics s.metrics severity).current_precision < 0.6
    · have hl : lookup (adapt_thresholds now s d severity).threshold_profiles
          d = some (tighten now p) := by
        unfold adapt_thresholds
        dsimp only
        rw [if_pos hc, lookup_map_update, hp]
        rfl
      rw [hl] at hp'
      injection hp' with hp''
      rw [← hp'']
      constructor
      · show p.peak_hour_threshold_percent ≤
          p.peak_hour_threshold_percent * 1.1
        nlinarith [hpk]
      · show p.off_peak_threshold_percent ≤
          p.off_peak_threshold_percent * 1.1
        nlinarith [hop]
    · have hl : lookup (adapt_thresholds now s d severity).threshold_profiles
          d = some p := by
        unfold adapt_thresholds
        dsimp only
        rw [if_neg hc]
        exact hp
      rw [hl] at hp'
      injection hp' with hp''
      rw [← hp'']
      exact ⟨le_refl _, le_refl _⟩

/-- Witness for C5: on a fresh agent, one false-positive feedback for
device `D1` drops precision to 0 and tightens the profile from
50 / 25 to 55 / 27.5, stamping `last_updated`. -/
theorem c5_threshold_tightening_witness :
    lookup (adapt_thresholds 5 agentFresh "D1"
      "false_positive").threshold_profiles "D1" = some (tighten 5 profD1) ∧
    profD1.peak_hour_threshold_percent <
      (tighten 5 profD1).peak_hour_threshold_percent ∧
    profD1.off_peak_threshold_percent <
      (tighten 5 profD1).off_peak_threshold_percent ∧
    (tighten 5 profD1).last_updated = 5 := by
  have h := (c5_threshold_tightening 5 agentFresh "D1" profD1 (by decide)
    (by decide) (by decide)).1 (by decide)
  exact ⟨h.1, h.2.2.2.1, h.2.2.2.2.1, h.2.2.2.2.2⟩

/-- C8: the baseline `learn_baselines` stores for a device with at least
one reading has `occupied_baseline` = mean power of the occupied samples
when any exist, else the mean over all of the device's readings; and
`unoccupied_baseline` = mean over unoccupied samples exactly when the
device category (lower-cased) is hvac or lighting, and the fixed value 0
for every other category. -/
theorem c8_learned_baselines (l : List Reading) (d : String) (b : Baseline)
    (h : lookup (learn_baselines l) d = some b) :
    l.filter (fun r => r.device_id = d) ≠ [] ∧
    b.category =
      ((l.filter (fun r => r.device_id = d)).headD default).device_category ∧
    ((l.filter (fun r => r.device_id = d)).filter
        (fun r => r.occupancy_status = "occupied") ≠ [] →
      b.occupied_baseline =
        meanD (((l.filter (fun r => r.device_id = d)).filter
          (fun r => r.occupancy_status = "occupied")).map
            (fun r => r.power_w))) ∧
    ((l.filter (fun r => r.device_id = d)).filter
        (fun r => r.occupancy_status = "occupied") = [] →
      b.occupied_baseline =
        meanD ((l.filter (fun r => r.device_id = d)).map
          (fun r => r.power_w))) ∧
    ((toLowerStr b.category = "hvac" ∨ toLowerStr b.category = "lighting") →
      b.unoccupied_baseline =
        meanQ (((l.filter (fun r => r.device_id = d)).filter
          (fun r => r.occupancy_status = "unoccupied")).map
            (fun r => r.power_w))) ∧
    (¬ (toLowerStr b.category = "hvac" ∨ toLowerStr b.category = "lighting") →
      b.unoccupied_baseline = some 0) := by
  unfold learn_baselines at h
  obtain ⟨hmem, hb⟩ := lookup_map_key _ _ d b h
  have hrows : l.filter (fun r => r.device_id = d) ≠ [] := by
    rcases exists_of_mem_uniqueVals (fun r => r.device_id) l d hmem with
      ⟨a, ha, hfa⟩
    exact List.ne_nil_of_mem (List.mem_filter.mpr ⟨ha, by simp [hfa]⟩)
  subst hb
  refine ⟨hrows, rfl, ?_, ?_, ?_, ?_⟩
  · intro hocc
    unfold deviceBaseline
    dsimp only
    rw [if_neg ?_]
    intro hemp
    exact hocc (by simpa using (List.isEmpty_iff.mp hemp))
  · intro hocc
    unfold deviceBaseline
    dsimp only
    rw [if_pos (by simp [hocc])]
  · intro hcat
    have hcat' : toLowerStr ((l.filter (fun r =>
        r.device_id = d)).headD default).device_category = "hvac" ∨
        toLowerStr ((l.filter (fun r =>
          r.device_id = d)).headD default).device_category = "lighting" :=
      hcat
    unfold deviceBaseline
    dsimp only
    rw [if_pos hcat']
  · intro hcat
    have hcat' : ¬ (toLowerStr ((l.filter (fun r =>
        r.device_id = d)).headD default).device_category = "hvac" ∨
        toLowerStr ((l.filter (fun r =>
          r.device_id = d)).headD default).device_category = "lighting") :=
      hcat
    unfold deviceBaseline
    dsimp only
    rw [if_neg hcat']

/-- Witness for C8: on the mixed batch, the hvac device's learned
unoccupied baseline is the mean of its unoccupied samples. -/
theorem c8_learned_baselines_witness :
    mixedBatch.filter (fun r => r.device_id = "HVAC_X") ≠ [] ∧
    bHvacX.unoccupied_baseline =
      meanQ (((mixedBatch.filter (fun r => r.device_id = "HVAC_X")).filter
        (fun r => r.occupancy_status = "unoccupied")).map
          (fun r => r.power_w)) := by
  have h := c8_learned_baselines mixedBatch "HVAC_X" bHvacX (by decide)
  exact ⟨h.1, h.2.2.2.2.1 (by decide)⟩

end PDP
